import Mathlib

/-
Shallow embedding of hyper-dns (src/lib.rs): a hyper connector that wraps an
inner connector and performs custom DNS resolution (A / SRV / AUTO) before
delegating the connection.  Pure data is translated directly; the asynchronous
DNS query is modelled by passing the resolver's response as an explicit
argument, and the random answer choice (rand::thread_rng / rng.choose) by an
explicit index argument taken modulo the number of answers.
-/

set_option autoImplicit false

namespace HyperDns

/-- A DNS domain name, modelling trust_dns::rr::Name: a sequence of labels plus
a flag recording whether the name is fully qualified (written with a trailing
root dot). -/
structure DnsName where
  labels : List String
  fqdn : Bool
deriving DecidableEq, Repr

/-- Character-by-character label parser, modelling the external
trust_dns::rr::Name::parse loop (origin = None, escape sequences unused by this
repository): a dot flushes the accumulated label, an empty or over-long
(> 63 chars) label is a parse error, and a trailing dot marks the name as
fully qualified. -/
def parseRest : List Char → List Char → Option (List String × Bool)
  | [], acc =>
      if acc = [] then some ([], true)
      else if acc.length > 63 then none
      else some ([⟨acc⟩], false)
  | c :: rest, acc =>
      if c = '.' then
        if acc = [] then none
        else if acc.length > 63 then none
        else (parseRest rest []).map (fun p => (⟨acc⟩ :: p.1, p.2))
      else parseRest rest (acc ++ [c])

/-- Model of trust_dns::rr::Name::parse with no origin: "." is the root, ""
is the empty non-qualified name, everything else goes through the label
parser.  Used by connect at line 106 of src/lib.rs. -/
def nameParse (s : String) : Option DnsName :=
  if s.data = ['.'] then some ⟨[], true⟩
  else if s.data = [] then some ⟨[], false⟩
  else (parseRest s.data []).map (fun p => ⟨p.1, p.2⟩)

/-- An IPv4 address (std::net::Ipv4Addr), four octets. -/
structure Ipv4 where
  o1 : Nat
  o2 : Nat
  o3 : Nat
  o4 : Nat
deriving DecidableEq, Repr

/-- Display form of an IPv4 address, modelling Ipv4Addr::to_string. -/
def Ipv4.toStr (ip : Ipv4) : String :=
  toString ip.o1 ++ "." ++ toString ip.o2 ++ "." ++ toString ip.o3 ++ "."
    ++ toString ip.o4

/-- Split a character list at every dot, modelling the grouping done by
Ipv4Addr's parser over "a.b.c.d". -/
def splitDots : List Char → List (List Char)
  | [] => [[]]
  | c :: rest =>
      if c = '.' then [] :: splitDots rest
      else
        match splitDots rest with
        | [] => [[c]]
        | g :: gs => (c :: g) :: gs

/-- Accumulate decimal digits, failing on any non-digit character. -/
def digitsToNat : List Char → Nat → Option Nat
  | [], acc => some acc
  | c :: rest, acc =>
      if c.isDigit then digitsToNat rest (acc * 10 + (c.toNat - 48))
      else none

/-- Parse one dotted-quad component, modelling Rust's u8 parsing inside
Ipv4Addr::from_str: non-empty, digits only, no leading zero, at most 255. -/
def parseOctet : List Char → Option Nat
  | [] => none
  | c :: rest =>
      if c = '0' ∧ rest ≠ [] then none
      else
        match digitsToNat (c :: rest) 0 with
        | none => none
        | some n => if n ≤ 255 then some n else none

/-- Model of "host".parse::<std::net::Ipv4Addr>() at line 93 of src/lib.rs:
exactly four dot-separated octets. -/
def parseIpv4 (s : String) : Option Ipv4 :=
  match (splitDots s.data).mapM parseOctet with
  | some [a, b, c, d] => some ⟨a, b, c, d⟩
  | _ => none

/-- The crate's RecordType enum (src/lib.rs lines 19-27). -/
inductive RecordType where
  | A
  | SRV
  | AUTO
deriving DecidableEq, Repr

/-- The subset of trust_dns::rr::RecordType actually queried by connect. -/
inductive TrustRecordType where
  | A
  | SRV
deriving DecidableEq, Repr

/-- Record data, modelling the trust_dns::rr::RData variants that connect
inspects: A records, SRV records (priority and weight carried but unused by
the resolution logic), and a catch-all for every other variant. -/
inductive RData where
  | a (addr : Ipv4)
  | srv (priority : Nat) (weight : Nat) (port : Nat) (target : DnsName)
  | other
deriving DecidableEq, Repr

/-- A DNS resource record: an owning name plus its data. -/
structure Record where
  name : DnsName
  rdata : RData
deriving DecidableEq, Repr

/-- Placeholder record used when indexing; every use is guarded by a bound on
the index, mirroring rng.choose returning Some on a non-empty slice. -/
def defaultRecord : Record := ⟨⟨[], false⟩, RData.other⟩

/-- A DNS response as consumed by connect: the answer section (res.answers())
and the additional-records section (res.additionals()). -/
structure DnsResponse where
  answers : List Record
  additionals : List Record
deriving DecidableEq, Repr

/-- A std::io::Error as built by connect: ErrorKind plus message string. -/
structure IoError where
  kind : String
  msg : String
deriving DecidableEq, Repr

/-- Error built at lines 135-137 of src/lib.rs for any DNS client failure. -/
def errQueryFailed : IoError := ⟨"Other", "Failed to query DNS server"⟩

/-- Error built at lines 146-148 of src/lib.rs for an empty answer section. -/
def errEmptyAnswer : IoError := ⟨"Other", "No valid DNS answers"⟩

/-- Error built at lines 162-164 of src/lib.rs when the chosen SRV answer does
not carry SRV data. -/
def errUnexpected : IoError := ⟨"Other", "Unexpected DNS response"⟩

/-- Error built at lines 181-183 and again at lines 189-191 of src/lib.rs:
used both when the matched record does not carry A data and when no record
matches the target name. -/
def errInvalidRecord : IoError := ⟨"Other", "Did not receive a valid record"⟩

/-- The hyper Destination triple used by connect: scheme, host, optional
port. -/
structure Destination where
  scheme : String
  host : String
  port : Option Nat
deriving DecidableEq, Repr

/-- The connector struct (src/lib.rs lines 30-37) minus the inner connector
capability, which the model represents by returning the Destination that
would be handed to it. -/
structure DnsConnector where
  record_type : RecordType
  dns_addr : String
  force_https : Bool
deriving DecidableEq, Repr

/-- Constructor new_with_resolve_type (src/lib.rs lines 48-59): note that
force_https is hard-coded to true; no construction path can unset it. -/
def DnsConnector.new_with_resolve_type (dns_addr : String)
    (record_type : RecordType) : DnsConnector :=
  { record_type := record_type, dns_addr := dns_addr, force_https := true }

/-- Constructor new (src/lib.rs lines 43-45): defaults to AUTO. -/
def DnsConnector.new (dns_addr : String) : DnsConnector :=
  DnsConnector.new_with_resolve_type dns_addr RecordType.AUTO

/-- Record-type selection (src/lib.rs lines 108-121): explicit A and SRV pass
through; AUTO queries SRV exactly when the caller supplied no port. -/
def chooseRecordType (rt : RecordType) (port : Option Nat) : TrustRecordType :=
  match rt with
  | RecordType.A => TrustRecordType.A
  | RecordType.SRV => TrustRecordType.SRV
  | RecordType.AUTO =>
      if port.isNone then TrustRecordType.SRV else TrustRecordType.A

/-- Answer processing (the closure at src/lib.rs lines 139-193).  The random
pick rng.choose(answers) is modelled as index choice % answers.length; the
SRV branch searches the additional-records section for the SRV target, the A
branch searches the answer section for the queried name, both by first name
match (Iterator::find). -/
def resolveAnswers (tt : TrustRecordType) (name : DnsName) (port : Option Nat)
    (res : DnsResponse) (choice : Nat) : Except IoError (String × Option Nat) :=
  if res.answers.isEmpty then
    Except.error errEmptyAnswer
  else
    let step : Except IoError (DnsName × List Record × Option Nat) :=
      match tt with
      | TrustRecordType.SRV =>
          let answer := res.answers.getD (choice % res.answers.length)
            defaultRecord
          match answer.rdata with
          | RData.srv _ _ p target =>
              Except.ok (target, res.additionals, some p)
          | _ => Except.error errUnexpected
      | TrustRecordType.A => Except.ok (name, res.answers, port)
    match step with
    | Except.error e => Except.error e
    | Except.ok (target, a_records, new_port) =>
        match a_records.find? (fun r => decide (r.name = target)) with
        | some entry =>
            match entry.rdata with
            | RData.a addr => Except.ok (addr.toStr, new_port)
            | _ => Except.error errInvalidRecord
        | none => Except.error errInvalidRecord

/-- Endpoint assembly (src/lib.rs lines 194-211): set the host to the resolved
address, force the scheme to https when configured, and override the port when
the resolver produced one. -/
def assembleDst (dst : Destination) (force_https : Bool) (ip : String)
    (port : Option Nat) : Destination :=
  let d1 : Destination := { dst with host := ip }
  let d2 : Destination := if force_https then { d1 with scheme := "https" }
    else d1
  match port with
  | some p => { d2 with port := some p }
  | none => d2

/-- Answer processing followed by endpoint assembly: the whole post-response
pipeline of connect for a domain-name destination. -/
def connectResolve (c : DnsConnector) (dst : Destination) (name : DnsName)
    (tt : TrustRecordType) (res : DnsResponse) (choice : Nat) :
    Except IoError Destination :=
  match resolveAnswers tt name dst.port res choice with
  | Except.error e => Except.error e
  | Except.ok (ip, new_port) =>
      Except.ok (assembleDst dst c.force_https ip new_port)

/-- What connect decides before any response arrives: pass a literal IPv4
destination straight through (lines 93-97), panic on the unchecked unwrap when
the dot-appended host fails to parse (line 106), or issue a query of the
chosen record type. -/
inductive ConnectPlan where
  | passthrough (dst : Destination)
  | unwrapPanic
  | query (name : DnsName) (tt : TrustRecordType)
deriving DecidableEq, Repr

/-- The pre-response part of connect (src/lib.rs lines 93-121). -/
def connectPlan (c : DnsConnector) (dst : Destination) : ConnectPlan :=
  match parseIpv4 dst.host with
  | some _ => ConnectPlan.passthrough dst
  | none =>
      match nameParse (dst.host ++ ".") with
      | none => ConnectPlan.unwrapPanic
      | some name =>
          ConnectPlan.query name (chooseRecordType c.record_type dst.port)

/-- Observable outcome of one connect call: the destination handed unchanged
to the inner connector, a panic, or the result of resolution (the or_else at
lines 133-138 turning a failed query into errQueryFailed). -/
inductive ConnectOutcome where
  | direct (dst : Destination)
  | unwrapPanicked
  | resolved (result : Except IoError Destination)

/-- Full model of connect (src/lib.rs lines 73-218): the DNS response is
supplied as an oracle argument (none modelling a transport or timeout
failure), the random answer pick as an index. -/
def connectModel (c : DnsConnector) (dst : Destination)
    (res : Option DnsResponse) (choice : Nat) : ConnectOutcome :=
  match connectPlan c dst with
  | ConnectPlan.passthrough d => ConnectOutcome.direct d
  | ConnectPlan.unwrapPanic => ConnectOutcome.unwrapPanicked
  | ConnectPlan.query name tt =>
      match res with
      | none => ConnectOutcome.resolved (Except.error errQueryFailed)
      | some r => ConnectOutcome.resolved (connectResolve c dst name tt r choice)

/-- Delegate invocation (src/lib.rs lines 96 and 212): the inner connector is
an oracle from the final destination to its own result, which connect passes
through unmodified; a resolution failure short-circuits the future chain
before the delegate is consulted, and a panic yields no result at all. -/
def connectWithDelegate (σ : Type) (c : DnsConnector) (dst : Destination)
    (res : Option DnsResponse) (choice : Nat)
    (inner : Destination → Except IoError σ) : Option (Except IoError σ) :=
  match connectModel c dst res choice with
  | ConnectOutcome.direct d => some (inner d)
  | ConnectOutcome.unwrapPanicked => none
  | ConnectOutcome.resolved (Except.error e) => some (Except.error e)
  | ConnectOutcome.resolved (Except.ok d) => some (inner d)

/-- Rewrite a record's SRV priority and weight fields, leaving its name, its
port, its target and every non-SRV record unchanged; used to state that
priority and weight never influence resolution. -/
def setPW (pf wf : Nat → Nat) (r : Record) : Record :=
  match r with
  | ⟨nm, RData.srv pr w p t⟩ => ⟨nm, RData.srv (pf pr) (wf w) p t⟩
  | r => r

/-- C3: a destination whose host parses as a literal IPv4 address bypasses DNS
resolution entirely: the outcome is the original destination handed unchanged
to the inner connector, and no query is made for any response oracle or random
choice. -/
theorem literal_ip_bypasses_dns (c : DnsConnector) (dst : Destination)
    (res : Option DnsResponse) (choice : Nat) (ip : Ipv4)
    (hip : parseIpv4 dst.host = some ip) :
    connectModel c dst res choice = ConnectOutcome.direct dst := by
  simp [connectModel, connectPlan, hip]

/-- Witness for C3 at the literal host "10.0.0.5" with a port and a response
oracle present. -/
theorem literal_ip_bypasses_dns_witness :
    connectModel (DnsConnector.new "127.0.0.1:53")
        ⟨"http", "10.0.0.5", some 8080⟩ (some ⟨[], []⟩) 0 =
      ConnectOutcome.direct ⟨"http", "10.0.0.5", some 8080⟩ :=
  literal_ip_bypasses_dns _ _ _ _ ⟨10, 0, 0, 5⟩ rfl

/-- C2: for a domain-name destination (host is not an IPv4 literal and the
dot-appended name parses), a query is issued whose record type is SRV exactly
when no port was supplied under the AUTO policy, always A under policy A, and
always SRV under policy SRV. -/
theorem record_type_selection (c : DnsConnector) (dst : Destination)
    (nm : DnsName) (hip : parseIpv4 dst.host = none)
    (hnm : nameParse (dst.host ++ ".") = some nm) :
    ∃ tt : TrustRecordType,
      connectPlan c dst = ConnectPlan.query nm tt ∧
      (c.record_type = RecordType.AUTO →
        (tt = TrustRecordType.SRV ↔ dst.port = none)) ∧
      (c.record_type = RecordType.A → tt = TrustRecordType.A) ∧
      (c.record_type = RecordType.SRV → tt = TrustRecordType.SRV) := by
  refine ⟨chooseRecordType c.record_type dst.port, ?_, ?_, ?_, ?_⟩
  · simp [connectPlan, hip, hnm]
  · intro h
    rw [h]
    cases hp : dst.port <;> simp [chooseRecordType, hp]
  · intro h
    rw [h]
    rfl
  · intro h
    rw [h]
    rfl

/-- Witness for C2 at host "example.com" with the AUTO policy and no port. -/
theorem record_type_selection_witness :
    ∃ tt : TrustRecordType,
      connectPlan (DnsConnector.new "127.0.0.1:53")
          ⟨"http", "example.com", none⟩ =
        ConnectPlan.query ⟨["example", "com"], true⟩ tt ∧
      ((DnsConnector.new "127.0.0.1:53").record_type = RecordType.AUTO →
        (tt = TrustRecordType.SRV ↔ (none : Option Nat) = none)) ∧
      ((DnsConnector.new "127.0.0.1:53").record_type = RecordType.A →
        tt = TrustRecordType.A) ∧
      ((DnsConnector.new "127.0.0.1:53").record_type = RecordType.SRV →
        tt = TrustRecordType.SRV) :=
  record_type_selection _ _ _ rfl rfl

/-- C5: a response with an empty answer section makes resolution fail with the
empty-answer error, for either queried record type and at every stage of the
pipeline; no endpoint is produced. -/
theorem empty_answer_fails (tt : TrustRecordType) (c : DnsConnector)
    (dst : Destination) (nm : DnsName) (port : Option Nat)
    (adds : List Record) (choice : Nat) :
    resolveAnswers tt nm port ⟨[], adds⟩ choice = Except.error errEmptyAnswer ∧
    connectResolve c dst nm tt ⟨[], adds⟩ choice =
      Except.error errEmptyAnswer :=
  ⟨rfl, rfl⟩

/-- C10: connect is not total over non-IPv4 host strings: a host that already
ends with a trailing dot is turned into a double-dotted string whose name
parse fails, and the unchecked unwrap at line 106 of src/lib.rs panics instead
of returning an error. -/
theorem connect_panics_on_trailing_dot_host :
    parseIpv4 "internal.service." = none ∧
    nameParse ("internal.service." ++ ".") = none ∧
    connectPlan (DnsConnector.new "10.0.0.1:53")
        ⟨"http", "internal.service.", none⟩ =
      ConnectPlan.unwrapPanic :=
  ⟨rfl, rfl, rfl⟩

/-- C1: when an SRV query's chosen answer carries SRV data with target T and
port P, and the first additional record named T is an A record with address X,
resolution succeeds and the endpoint's host is X's display form while its port
is P, overriding any caller-supplied port. -/
theorem srv_resolution_uses_additional_a (c : DnsConnector)
    (dst : Destination) (qname n T : DnsName) (res : DnsResponse)
    (choice : Nat) (pr w P : Nat) (X : Ipv4)
    (hne : res.answers ≠ [])
    (hsel : res.answers.getD (choice % res.answers.length) defaultRecord =
      ⟨n, RData.srv pr w P T⟩)
    (hfind : res.additionals.find? (fun r => decide (r.name = T)) =
      some ⟨T, RData.a X⟩) :
    ∃ d : Destination,
      connectResolve c dst qname TrustRecordType.SRV res choice =
        Except.ok d ∧
      d.host = X.toStr ∧ d.port = some P := by
  refine ⟨assembleDst dst c.force_https X.toStr (some P), ?_, ?_, ?_⟩
  · simp only [connectResolve, resolveAnswers, hsel, hfind]
    rw [if_neg (by simpa [List.isEmpty_iff] using hne)]
  · cases c.force_https <;> rfl
  · cases c.force_https <;> rfl

/-- Witness for C1: the spec's own example, target svc.example.com. port 8443
with additional A record 10.0.0.5, and a caller-supplied port 1234 that is
overridden. -/
theorem srv_resolution_uses_additional_a_witness :
    ∃ d : Destination,
      connectResolve (DnsConnector.new "127.0.0.1:53")
          ⟨"http", "svc.example.com", some 1234⟩
          ⟨["svc", "example", "com"], true⟩ TrustRecordType.SRV
          ⟨[⟨⟨["svc", "example", "com"], true⟩,
              RData.srv 10 20 8443 ⟨["svc", "example", "com"], true⟩⟩],
            [⟨⟨["svc", "example", "com"], true⟩, RData.a ⟨10, 0, 0, 5⟩⟩]⟩ 0 =
        Except.ok d ∧
      d.host = (Ipv4.mk 10 0 0 5).toStr ∧ d.port = some 8443 :=
  srv_resolution_uses_additional_a _ _ _ ⟨["svc", "example", "com"], true⟩ _ _
    _ 10 20 _ _ (by simp) rfl rfl

/-- C6: when the chosen SRV answer's target has no matching record in the
additional section, and when a direct A query's answer section has no record
named like the queried name, resolution fails with the
missing-correlated-record error (errInvalidRecord); there is no fallback. -/
theorem missing_correlated_record_error (nm : DnsName) (port : Option Nat)
    (res : DnsResponse) (choice : Nat) :
    (∀ (n T : DnsName) (pr w p : Nat),
        res.answers ≠ [] →
        res.answers.getD (choice % res.answers.length) defaultRecord =
          ⟨n, RData.srv pr w p T⟩ →
        res.additionals.find? (fun r => decide (r.name = T)) = none →
        resolveAnswers TrustRecordType.SRV nm port res choice =
          Except.error errInvalidRecord) ∧
    (res.answers ≠ [] →
        res.answers.find? (fun r => decide (r.name = nm)) = none →
        resolveAnswers TrustRecordType.A nm port res choice =
          Except.error errInvalidRecord) := by
  constructor
  · intro n T pr w p hne hsel hfind
    simp only [resolveAnswers, hsel, hfind]
    rw [if_neg (by simpa [List.isEmpty_iff] using hne)]
  · intro hne hfind
    simp only [resolveAnswers, hfind]
    rw [if_neg (by simpa [List.isEmpty_iff] using hne)]

/-- Witness for C6: an SRV answer with an empty additional section, and an A
answer owned by a different name. -/
theorem missing_correlated_record_witness :
    resolveAnswers TrustRecordType.SRV ⟨["example", "com"], true⟩ none
        ⟨[⟨⟨["example", "com"], true⟩,
            RData.srv 0 0 80 ⟨["svc"], true⟩⟩], []⟩ 0 =
      Except.error errInvalidRecord ∧
    resolveAnswers TrustRecordType.A ⟨["example", "com"], true⟩ none
        ⟨[⟨⟨["other"], true⟩, RData.a ⟨1, 2, 3, 4⟩⟩], []⟩ 0 =
      Except.error errInvalidRecord :=
  ⟨(missing_correlated_record_error ⟨["example", "com"], true⟩ none _ 0).1
      _ _ 0 0 80 (by simp) rfl rfl,
    (missing_correlated_record_error ⟨["example", "com"], true⟩ none _ 0).2
      (by simp) rfl⟩

/-- C7 counterexample: the scheme-forcing flag is not an optional construction
parameter; both constructors hard-code force_https to true, and resolution
rewrites an http request's scheme to https. -/
theorem force_https_counterexample :
    (DnsConnector.new "127.0.0.1:53").force_https = true ∧
    (DnsConnector.new_with_resolve_type "127.0.0.1:53"
        RecordType.A).force_https = true ∧
    (DnsConnector.new_with_resolve_type "127.0.0.1:53"
        RecordType.SRV).force_https = true ∧
    (DnsConnector.new_with_resolve_type "127.0.0.1:53"
        RecordType.AUTO).force_https = true ∧
    connectModel (DnsConnector.new "127.0.0.1:53")
        ⟨"http", "example.com", some 80⟩
        (some ⟨[⟨⟨["example", "com"], true⟩, RData.a ⟨1, 2, 3, 4⟩⟩], []⟩) 0 =
      ConnectOutcome.resolved (Except.ok ⟨"https", "1.2.3.4", some 80⟩) :=
  ⟨rfl, rfl, rfl, rfl, rfl⟩

/-- C7 amended: every constructed connector has force_https = true, so every
successfully resolved endpoint carries the scheme "https" regardless of the
original request's scheme. -/
theorem force_https_not_configurable (dns_addr : String) (rt : RecordType)
    (dst : Destination) (nm : DnsName) (tt : TrustRecordType)
    (res : DnsResponse) (choice : Nat) (d : Destination) :
    (DnsConnector.new_with_resolve_type dns_addr rt).force_https = true ∧
    (DnsConnector.new dns_addr).force_https = true ∧
    (connectResolve (DnsConnector.new_with_resolve_type dns_addr rt) dst nm tt
        res choice = Except.ok d → d.scheme = "https") := by
  refine ⟨rfl, rfl, ?_⟩
  intro h
  simp only [connectResolve] at h
  cases hr : resolveAnswers tt nm dst.port res choice with
  | error e =>
      rw [hr] at h
      exact absurd h (by simp)
  | ok v =>
      obtain ⟨ip, np⟩ := v
      rw [hr] at h
      have hd : assembleDst dst
          (DnsConnector.new_with_resolve_type dns_addr rt).force_https ip np =
          d := by
        exact Except.ok.inj h
      rw [← hd]
      cases np <;>
        simp [assembleDst, DnsConnector.new_with_resolve_type]

/-- Witness for C7's amended theorem at a concrete resolution whose original
scheme was http. -/
theorem force_https_not_configurable_witness :
    (DnsConnector.new_with_resolve_type "127.0.0.1:53"
        RecordType.A).force_https = true ∧
    Destination.scheme ⟨"https", "1.2.3.4", some 80⟩ = "https" :=
  ⟨(force_https_not_configurable "127.0.0.1:53" RecordType.A
      ⟨"http", "example.com", some 80⟩ ⟨["example", "com"], true⟩
      TrustRecordType.A
      ⟨[⟨⟨["example", "com"], true⟩, RData.a ⟨1, 2, 3, 4⟩⟩], []⟩ 0
      ⟨"https", "1.2.3.4", some 80⟩).1,
    (force_https_not_configurable "127.0.0.1:53" RecordType.A
      ⟨"http", "example.com", some 80⟩ ⟨["example", "com"], true⟩
      TrustRecordType.A
      ⟨[⟨⟨["example", "com"], true⟩, RData.a ⟨1, 2, 3, 4⟩⟩], []⟩ 0
      ⟨"https", "1.2.3.4", some 80⟩).2.2 rfl⟩

/-- C9 counterexample: a matched additional record that carries non-A data
and a missing correlated record produce the very same error value, so the two
failure cases are not distinguishable by the caller. -/
theorem matched_non_a_same_error_as_missing :
    resolveAnswers TrustRecordType.SRV ⟨["q"], true⟩ none
        ⟨[⟨⟨["q"], true⟩, RData.srv 0 0 80 ⟨["t"], true⟩⟩],
          [⟨⟨["t"], true⟩, RData.other⟩]⟩ 0 =
      resolveAnswers TrustRecordType.SRV ⟨["q"], true⟩ none
        ⟨[⟨⟨["q"], true⟩, RData.srv 0 0 80 ⟨["t"], true⟩⟩], []⟩ 0 ∧
    resolveAnswers TrustRecordType.SRV ⟨["q"], true⟩ none
        ⟨[⟨⟨["q"], true⟩, RData.srv 0 0 80 ⟨["t"], true⟩⟩],
          [⟨⟨["t"], true⟩, RData.other⟩]⟩ 0 =
      Except.error errInvalidRecord :=
  ⟨rfl, rfl⟩

theorem resolveAnswers_error_cases (tt : TrustRecordType) (nm : DnsName)
    (port : Option Nat) (res : DnsResponse) (choice : Nat) (e : IoError)
    (h : resolveAnswers tt nm port res choice = Except.error e) :
    e = errEmptyAnswer ∨ e = errUnexpected ∨ e = errInvalidRecord := by
  obtain ⟨ans, adds⟩ := res
  cases ans with
  | nil =>
      left
      have h2 : Except.error errEmptyAnswer = Except.error e := h
      exact (Except.error.inj h2).symm
  | cons a t =>
      cases tt with
      | SRV =>
          cases hrd : ((a :: t).getD (choice % (a :: t).length)
              defaultRecord).rdata with
          | srv pr0 w0 p0 target =>
              simp only [resolveAnswers, hrd] at h
              rw [if_neg (by simp)] at h
              cases hf : adds.find? (fun r => decide (r.name = target)) with
              | none =>
                  rw [hf] at h
                  right; right
                  exact (Except.error.inj h).symm
              | some entry =>
                  rw [hf] at h
                  obtain ⟨en, erd⟩ := entry
                  cases erd with
                  | a x => exact Except.noConfusion h
                  | srv _ _ _ _ =>
                      right; right
                      exact (Except.error.inj h).symm
                  | other =>
                      right; right
                      exact (Except.error.inj h).symm
          | a x =>
              simp only [resolveAnswers, hrd] at h
              rw [if_neg (by simp)] at h
              right; left
              exact (Except.error.inj h).symm
          | other =>
              simp only [resolveAnswers, hrd] at h
              rw [if_neg (by simp)] at h
              right; left
              exact (Except.error.inj h).symm
      | A =>
          cases hf : (a :: t).find? (fun r => decide (r.name = nm)) with
          | none =>
              simp only [resolveAnswers, hf] at h
              rw [if_neg (by simp)] at h
              right; right
              exact (Except.error.inj h).symm
          | some entry =>
              obtain ⟨en, erd⟩ := entry
              cases erd with
              | a x =>
                  simp only [resolveAnswers, hf] at h
                  rw [if_neg (by simp)] at h
                  exact Except.noConfusion h
              | srv _ _ _ _ =>
                  simp only [resolveAnswers, hf] at h
                  rw [if_neg (by simp)] at h
                  right; right
                  exact (Except.error.inj h).symm
              | other =>
                  simp only [resolveAnswers, hf] at h
                  rw [if_neg (by simp)] at h
                  right; right
                  exact (Except.error.inj h).symm

/-- C9 amended: every failure stays observable and typed: the four resolution
error values are pairwise distinct, so a failed query, an empty answer, and a
non-SRV answer are mutually distinguishable, and every resolution failure is
one of those four fixed values and short-circuits before the inner connector
is consulted (the outcome is the resolution error itself, independent of the
delegate), so resolution failures remain distinguishable from the inner
connector's own connection failures; but a matched record carrying non-A data
and a missing correlated record both yield the same errInvalidRecord and
cannot be told apart. -/
theorem resolution_error_distinguishability (c : DnsConnector) (nm : DnsName)
    (port : Option Nat) (res : DnsResponse) (choice : Nat) (n T : DnsName)
    (pr w p : Nat)
    (hne : res.answers ≠ [])
    (hsel : res.answers.getD (choice % res.answers.length) defaultRecord =
      ⟨n, RData.srv pr w p T⟩) :
    (errQueryFailed ≠ errEmptyAnswer ∧ errQueryFailed ≠ errUnexpected ∧
      errQueryFailed ≠ errInvalidRecord ∧ errEmptyAnswer ≠ errUnexpected ∧
      errEmptyAnswer ≠ errInvalidRecord ∧ errUnexpected ≠ errInvalidRecord) ∧
    (∀ entry : Record,
        res.additionals.find? (fun r => decide (r.name = T)) = some entry →
        (∀ x : Ipv4, entry.rdata ≠ RData.a x) →
        resolveAnswers TrustRecordType.SRV nm port res choice =
          Except.error errInvalidRecord) ∧
    (res.additionals.find? (fun r => decide (r.name = T)) = none →
        resolveAnswers TrustRecordType.SRV nm port res choice =
          Except.error errInvalidRecord) ∧
    (∀ (σ : Type) (dst : Destination) (ores : Option DnsResponse) (ch : Nat)
        (e : IoError) (inner1 inner2 : Destination → Except IoError σ),
        connectModel c dst ores ch =
          ConnectOutcome.resolved (Except.error e) →
        (e = errQueryFailed ∨ e = errEmptyAnswer ∨ e = errUnexpected ∨
          e = errInvalidRecord) ∧
        connectWithDelegate σ c dst ores ch inner1 =
          some (Except.error e) ∧
        connectWithDelegate σ c dst ores ch inner1 =
          connectWithDelegate σ c dst ores ch inner2) := by
  refine ⟨by refine ⟨?_, ?_, ?_, ?_, ?_, ?_⟩ <;> decide, ?_, ?_, ?_⟩
  · intro entry hfind hna
    obtain ⟨en, erd⟩ := entry
    cases erd with
    | a x => exact absurd rfl (hna x)
    | srv p1 w1 pp t1 =>
        simp only [resolveAnswers, hsel, hfind]
        rw [if_neg (by simpa [List.isEmpty_iff] using hne)]
    | other =>
        simp only [resolveAnswers, hsel, hfind]
        rw [if_neg (by simpa [List.isEmpty_iff] using hne)]
  · intro hfind
    simp only [resolveAnswers, hsel, hfind]
    rw [if_neg (by simpa [List.isEmpty_iff] using hne)]
  · intro σ dst ores ch e inner1 inner2 hfail
    have hdel1 : connectWithDelegate σ c dst ores ch inner1 =
        some (Except.error e) := by
      simp only [connectWithDelegate, hfail]
    have hdel2 : connectWithDelegate σ c dst ores ch inner2 =
        some (Except.error e) := by
      simp only [connectWithDelegate, hfail]
    refine ⟨?_, hdel1, hdel1.trans hdel2.symm⟩
    simp only [connectModel] at hfail
    cases hplan : connectPlan c dst with
    | passthrough d =>
        rw [hplan] at hfail
        exact ConnectOutcome.noConfusion hfail
    | unwrapPanic =>
        rw [hplan] at hfail
        exact ConnectOutcome.noConfusion hfail
    | query name tt =>
        rw [hplan] at hfail
        cases ores with
        | none =>
            left
            have h1 := ConnectOutcome.resolved.inj hfail
            exact (Except.error.inj h1).symm
        | some r =>
            right
            have h1 := ConnectOutcome.resolved.inj hfail
            have h3 : resolveAnswers tt name dst.port r ch = Except.error e :=
              by
              simp only [connectResolve] at h1
              cases hra : resolveAnswers tt name dst.port r ch with
              | error e0 =>
                  rw [hra] at h1
                  have h2 : (Except.error e0 : Except IoError Destination) =
                      Except.error e := h1
                  exact congrArg Except.error (Except.error.inj h2)
              | ok v =>
                  obtain ⟨ip, np⟩ := v
                  rw [hra] at h1
                  have h2 : (Except.ok (assembleDst dst c.force_https ip np) :
                      Except IoError Destination) = Except.error e := h1
                  exact Except.noConfusion h2
            exact resolveAnswers_error_cases tt name dst.port r ch e h3

/-- Witness for C9's amended theorem: a matched SRV-data additional record, an
empty additional section, and a full connect whose resolution fails with the
empty-answer error, whose observable result is that error for any delegate. -/
theorem resolution_error_distinguishability_witness :
    errUnexpected ≠ errInvalidRecord ∧
    resolveAnswers TrustRecordType.SRV ⟨["q2"], true⟩ none
        ⟨[⟨⟨["q2"], true⟩, RData.srv 0 0 80 ⟨["t2"], true⟩⟩],
          [⟨⟨["t2"], true⟩, RData.srv 0 0 80 ⟨["t2"], true⟩⟩]⟩ 0 =
      Except.error errInvalidRecord ∧
    resolveAnswers TrustRecordType.SRV ⟨["q2"], true⟩ none
        ⟨[⟨⟨["q2"], true⟩, RData.srv 0 0 80 ⟨["t2"], true⟩⟩], []⟩ 0 =
      Except.error errInvalidRecord ∧
    connectWithDelegate Unit (DnsConnector.new "127.0.0.1:53")
        ⟨"http", "example.com", some 80⟩ (some ⟨[], []⟩) 0
        (fun _ => Except.ok ()) = some (Except.error errEmptyAnswer) ∧
    connectWithDelegate Unit (DnsConnector.new "127.0.0.1:53")
        ⟨"http", "example.com", some 80⟩ (some ⟨[], []⟩) 0
        (fun _ => Except.ok ()) =
      connectWithDelegate Unit (DnsConnector.new "127.0.0.1:53")
        ⟨"http", "example.com", some 80⟩ (some ⟨[], []⟩) 0
        (fun _ => Except.error errQueryFailed) :=
  ⟨(resolution_error_distinguishability (DnsConnector.new "127.0.0.1:53")
      ⟨["q2"], true⟩ none
      ⟨[⟨⟨["q2"], true⟩, RData.srv 0 0 80 ⟨["t2"], true⟩⟩],
        [⟨⟨["t2"], true⟩, RData.srv 0 0 80 ⟨["t2"], true⟩⟩]⟩ 0
      ⟨["q2"], true⟩ ⟨["t2"], true⟩ 0 0 80 (by simp) rfl).1.2.2.2.2.2,
    (resolution_error_distinguishability (DnsConnector.new "127.0.0.1:53")
      ⟨["q2"], true⟩ none
      ⟨[⟨⟨["q2"], true⟩, RData.srv 0 0 80 ⟨["t2"], true⟩⟩],
        [⟨⟨["t2"], true⟩, RData.srv 0 0 80 ⟨["t2"], true⟩⟩]⟩ 0
      ⟨["q2"], true⟩ ⟨["t2"], true⟩ 0 0 80 (by simp) rfl).2.1
      ⟨⟨["t2"], true⟩, RData.srv 0 0 80 ⟨["t2"], true⟩⟩ rfl
      (fun x h => RData.noConfusion h),
    (resolution_error_distinguishability (DnsConnector.new "127.0.0.1:53")
      ⟨["q2"], true⟩ none
      ⟨[⟨⟨["q2"], true⟩, RData.srv 0 0 80 ⟨["t2"], true⟩⟩], []⟩ 0
      ⟨["q2"], true⟩ ⟨["t2"], true⟩ 0 0 80 (by simp) rfl).2.2.1 rfl,
    ((resolution_error_distinguishability (DnsConnector.new "127.0.0.1:53")
      ⟨["q2"], true⟩ none
      ⟨[⟨⟨["q2"], true⟩, RData.srv 0 0 80 ⟨["t2"], true⟩⟩], []⟩ 0
      ⟨["q2"], true⟩ ⟨["t2"], true⟩ 0 0 80 (by simp) rfl).2.2.2 Unit
      ⟨"http", "example.com", some 80⟩ (some ⟨[], []⟩) 0 errEmptyAnswer
      (fun _ => Except.ok ()) (fun _ => Except.error errQueryFailed)
      rfl).2.1,
    ((resolution_error_distinguishability (DnsConnector.new "127.0.0.1:53")
      ⟨["q2"], true⟩ none
      ⟨[⟨⟨["q2"], true⟩, RData.srv 0 0 80 ⟨["t2"], true⟩⟩], []⟩ 0
      ⟨["q2"], true⟩ ⟨["t2"], true⟩ 0 0 80 (by simp) rfl).2.2.2 Unit
      ⟨"http", "example.com", some 80⟩ (some ⟨[], []⟩) 0 errEmptyAnswer
      (fun _ => Except.ok ()) (fun _ => Except.error errQueryFailed)
      rfl).2.2⟩

theorem setPW_name (pf wf : Nat → Nat) (r : Record) :
    (setPW pf wf r).name = r.name := by
  obtain ⟨nm, rd⟩ := r
  cases rd <;> rfl

theorem getD_setPW (pf wf : Nat → Nat) :
    ∀ (l : List Record) (i : Nat), i < l.length →
      (l.map (setPW pf wf)).getD i defaultRecord =
        setPW pf wf (l.getD i defaultRecord)
  | a :: t, 0, _ => rfl
  | a :: t, i + 1, h =>
      getD_setPW pf wf t i (by simpa using Nat.lt_of_succ_lt_succ h)

theorem find?_setPW (pf wf : Nat → Nat) (target : DnsName) :
    ∀ l : List Record,
      (l.map (setPW pf wf)).find? (fun r => decide (r.name = target)) =
        (l.find? (fun r => decide (r.name = target))).map (setPW pf wf) := by
  intro l
  induction l with
  | nil => rfl
  | cons a t ih =>
      simp only [List.map_cons, List.find?_cons, setPW_name]
      by_cases h : a.name = target
      · simp [h]
      · simp [h, ih]

/-- C4 counterexample: for an A query answered by two valid A records owned by
the queried name, the first answer is returned no matter what the random
choice is; the second valid answer is never selected, so selection among
multiple A answers is not uniformly random. -/
theorem a_answers_not_randomly_selected :
    resolveAnswers TrustRecordType.A ⟨["example", "com"], true⟩ none
        ⟨[⟨⟨["example", "com"], true⟩, RData.a ⟨10, 0, 0, 1⟩⟩,
          ⟨⟨["example", "com"], true⟩, RData.a ⟨10, 0, 0, 2⟩⟩], []⟩ 0 =
      Except.ok ((Ipv4.mk 10 0 0 1).toStr, none) ∧
    resolveAnswers TrustRecordType.A ⟨["example", "com"], true⟩ none
        ⟨[⟨⟨["example", "com"], true⟩, RData.a ⟨10, 0, 0, 1⟩⟩,
          ⟨⟨["example", "com"], true⟩, RData.a ⟨10, 0, 0, 2⟩⟩], []⟩ 1 =
      Except.ok ((Ipv4.mk 10 0 0 1).toStr, none) :=
  ⟨rfl, rfl⟩

/-- C4 amended: for SRV queries the answer is selected purely by the random
index taken modulo the number of answers, and rewriting every answer's SRV
priority and weight fields never changes the outcome; for A queries there is
no random selection at all: the result is independent of the random choice
(the first answer whose name matches the queried name is always used). -/
theorem selection_uniform_and_ignores_priority_weight (nm : DnsName)
    (port : Option Nat) (res : DnsResponse) (choice : Nat) :
    (∀ (tt : TrustRecordType) (pf wf : Nat → Nat),
        resolveAnswers tt nm port
          ⟨res.answers.map (setPW pf wf), res.additionals⟩ choice =
        resolveAnswers tt nm port res choice) ∧
    resolveAnswers TrustRecordType.SRV nm port res choice =
      resolveAnswers TrustRecordType.SRV nm port res
        (choice % res.answers.length) ∧
    (∀ c1 c2 : Nat, resolveAnswers TrustRecordType.A nm port res c1 =
        resolveAnswers TrustRecordType.A nm port res c2) := by
  obtain ⟨ans, adds⟩ := res
  refine ⟨?_, ?_, fun c1 c2 => rfl⟩
  · intro tt pf wf
    cases ans with
    | nil => cases tt <;> rfl
    | cons a t =>
        have hmod : choice % (a :: t).length < (a :: t).length :=
          Nat.mod_lt _ (Nat.succ_pos _)
        cases tt with
        | SRV =>
            simp only [resolveAnswers]
            rw [if_neg (by simp), if_neg (by simp), List.length_map,
              List.map_cons]
            rw [show (setPW pf wf a :: List.map (setPW pf wf) t).getD
                (choice % (a :: t).length) defaultRecord =
                setPW pf wf ((a :: t).getD (choice % (a :: t).length)
                  defaultRecord) from
              getD_setPW pf wf (a :: t) (choice % (a :: t).length) hmod]
            generalize (a :: t).getD (choice % (a :: t).length)
              defaultRecord = r
            obtain ⟨rn, rd⟩ := r
            cases rd <;> simp [setPW]
        | A =>
            simp only [resolveAnswers]
            rw [if_neg (by simp), if_neg (by simp),
              find?_setPW pf wf nm (a :: t)]
            cases hf : (a :: t).find? (fun r => decide (r.name = nm)) with
            | none => rfl
            | some entry =>
                obtain ⟨en, erd⟩ := entry
                cases erd <;> simp [setPW]
  · cases ans with
    | nil => rfl
    | cons a t =>
        simp only [resolveAnswers]
        rw [Nat.mod_mod_of_dvd _ dvd_rfl]

theorem data_append (s t : String) : (s ++ t).data = s.data ++ t.data := by
  cases s
  cases t
  rfl

theorem parseRest_ends_dot_fqdn :
    ∀ (l : List Char) (acc : List Char) (ls : List String) (b : Bool),
      parseRest (l ++ ['.']) acc = some (ls, b) → b = true := by
  intro l
  induction l with
  | nil =>
      intro acc ls b h
      simp only [List.nil_append] at h
      by_cases ha : acc = []
      · simp [parseRest, ha] at h
      · by_cases hl : acc.length > 63
        · simp [parseRest, ha, hl] at h
        · simp [parseRest, ha, hl] at h
          exact h.2
  | cons c t ih =>
      intro acc ls b h
      rw [List.cons_append] at h
      by_cases hc : c = '.'
      · subst hc
        by_cases ha : acc = []
        · simp [parseRest, ha] at h
        · by_cases hl : acc.length > 63
          · simp [parseRest, ha, hl] at h
          · simp only [parseRest, if_pos rfl, if_neg ha, if_neg hl] at h
            cases hp : parseRest (t ++ ['.']) [] with
            | none => rw [hp] at h; cases h
            | some p =>
                rw [hp, Option.map_some'] at h
                have hpair := Option.some.inj h
                have hb := ih [] p.1 p.2 (by rw [hp])
                have hsnd : p.2 = b := by
                  have := congrArg Prod.snd hpair
                  simpa using this
                rw [← hsnd]
                exact hb
      · simp only [parseRest, if_neg hc] at h
        exact ih (acc ++ [c]) ls b h

theorem parseRest_double_dot :
    ∀ (l : List Char) (acc : List Char) (l2 : List Char),
      parseRest (l ++ '.' :: '.' :: l2) acc = none := by
  intro l
  induction l with
  | nil =>
      intro acc l2
      by_cases ha : acc = []
      · simp [parseRest, ha]
      · by_cases hl : acc.length > 63
        · simp [parseRest, ha, hl]
        · simp [parseRest, ha, hl]
  | cons c t ih =>
      intro acc l2
      rw [List.cons_append]
      by_cases hc : c = '.'
      · subst hc
        by_cases ha : acc = []
        · simp [parseRest, ha]
        · by_cases hl : acc.length > 63
          · simp [parseRest, ha, hl]
          · simp [parseRest, ha, hl, ih]
      · simp [parseRest, hc, ih]

theorem nameParse_double_trailing_dot (h0 : String) :
    nameParse ((h0 ++ ".") ++ ".") = none := by
  have hd : ((h0 ++ ".") ++ ".").data = h0.data ++ '.' :: '.' :: [] := by
    rw [data_append, data_append, List.append_assoc]
    rfl
  have h1 : h0.data ++ '.' :: '.' :: [] ≠ ['.'] := by
    intro he
    have hlen := congrArg List.length he
    simp only [List.length_append, List.length_cons, List.length_nil] at hlen
    omega
  have h2 : h0.data ++ '.' :: '.' :: [] ≠ [] := by
    intro he
    have hlen := congrArg List.length he
    simp only [List.length_append, List.length_cons, List.length_nil] at hlen
    omega
  unfold nameParse
  rw [hd, if_neg h1, if_neg h2, parseRest_double_dot h0.data [] []]
  exact Option.map_none' _

theorem nameParse_appended_dot_fqdn (s : String) (nm : DnsName)
    (h : nameParse (s ++ ".") = some nm) : nm.fqdn = true := by
  have hd : (s ++ ".").data = s.data ++ ['.'] := by
    rw [data_append]
  unfold nameParse at h
  rw [hd] at h
  by_cases h1 : s.data ++ ['.'] = ['.']
  · rw [if_pos h1] at h
    injection h with h'
    rw [← h']
  · rw [if_neg h1] at h
    have h2 : s.data ++ ['.'] ≠ [] := by
      intro he
      have hlen := congrArg List.length he
      simp only [List.length_append, List.length_cons, List.length_nil] at hlen
      omega
    rw [if_neg h2] at h
    cases hp : parseRest (s.data ++ ['.']) [] with
    | none => rw [hp] at h; cases h
    | some p =>
        rw [hp, Option.map_some'] at h
        have hpair := Option.some.inj h
        have hb := parseRest_ends_dot_fqdn s.data [] p.1 p.2 (by rw [hp])
        rw [← hpair]
        exact hb

/-- C8 counterexample: a host already ending in a dot is not queried as-is:
"example.com." is itself a parseable fully-qualified name, yet connect appends
another dot, the double-dotted string fails to parse, and the unchecked unwrap
panics instead of issuing a query for the as-is name. -/
theorem trailing_dot_not_queried_as_is :
    nameParse "example.com." = some ⟨["example", "com"], true⟩ ∧
    connectPlan (DnsConnector.new "127.0.0.1:53")
        ⟨"http", "example.com.", none⟩ = ConnectPlan.unwrapPanic :=
  ⟨rfl, rfl⟩

/-- C8 amended: the query name string is host ++ "." with the trailing dot
appended unconditionally; whenever that string parses, the query carries the
parsed name, which is fully qualified, and a host that already ends with a
dot never reaches the query: its double-dotted string fails to parse and
connect panics on the unwrap. -/
theorem query_name_appends_dot_unconditionally (c : DnsConnector)
    (dst : Destination) (nm : DnsName) (h0 : String)
    (hip : parseIpv4 dst.host = none) :
    (nameParse (dst.host ++ ".") = some nm →
        connectPlan c dst =
          ConnectPlan.query nm (chooseRecordType c.record_type dst.port) ∧
        nm.fqdn = true) ∧
    (dst.host = h0 ++ "." → connectPlan c dst = ConnectPlan.unwrapPanic) := by
  constructor
  · intro hnm
    exact ⟨by simp [connectPlan, hip, hnm],
      nameParse_appended_dot_fqdn dst.host nm hnm⟩
  · intro hh
    simp only [connectPlan, hip]
    rw [hh, nameParse_double_trailing_dot h0]

/-- Witness for C8's amended theorem: the host "svc.test" is queried as the
fully-qualified svc.test. while the host "svc.test." panics. -/
theorem query_name_appends_dot_witness :
    (connectPlan (DnsConnector.new "127.0.0.1:53")
        ⟨"http", "svc.test", none⟩ =
      ConnectPlan.query ⟨["svc", "test"], true⟩ TrustRecordType.SRV ∧
      (DnsName.mk ["svc", "test"] true).fqdn = true) ∧
    connectPlan (DnsConnector.new "127.0.0.1:53")
        ⟨"http", "svc.test.", none⟩ = ConnectPlan.unwrapPanic :=
  ⟨(query_name_appends_dot_unconditionally (DnsConnector.new "127.0.0.1:53")
      ⟨"http", "svc.test", none⟩ ⟨["svc", "test"], true⟩ "unused" rfl).1 rfl,
    (query_name_appends_dot_unconditionally (DnsConnector.new "127.0.0.1:53")
      ⟨"http", "svc.test.", none⟩ ⟨[], false⟩ "svc.test" rfl).2 rfl⟩

example : nameParse "example.com." = some ⟨["example", "com"], true⟩ := rfl

example : nameParse "example.com.." = none := rfl

example : parseIpv4 "10.0.0.5" = some ⟨10, 0, 0, 5⟩ := rfl

example : parseIpv4 "example.com" = none := rfl

example : parseIpv4 "10.0.0.256" = none := rfl

end HyperDns
